import Mathlib

/-!
Verification of the BulletDrop request admission-control core
(`app/middleware/rate_limit.py`, `app/services/redis_service.py`,
`app/services/security_monitor.py`, `app/api/routes/rate_limits.py`)
against its natural-language specification.

Shallow embedding conventions:
* Redis keys are modelled as `List Char` (the code builds them by string
  concatenation and glob/substring matching, which is easiest to reason
  about at the character-list level).
* Wall-clock time and sorted-set scores are `ℤ`: `time.time()` returns a
  float, but no claim under verification depends on sub-second resolution,
  so instants are modelled as integers (an arbitrary discrete time base).
  On integral instants Python's `int()` is the identity, so
  `reset = int(now + window)` is embedded as `now + window`.
* A sorted set whose members are `str(score)` is modelled as the list of
  its scores (`zadd {str(now): now}` therefore dedups equal scores).
* `setex`/TTL keys are modelled as `Option ℤ` holding the absolute expiry
  instant; a key is live at `now` iff `now < expiry`.
* Every Redis access in `rate_limit.py` happens inside a `try: ... except
  Exception:` block through the expression `self.redis.client`.  The
  possibility that this access (or any pipelined call) raises is modelled
  by a boolean `fails` parameter: when `fails = true` the function takes
  its `except` branch.  Whether the access raises in the deployed program
  is decided by Python attribute lookup on `RedisService`, modelled by
  `redisServiceAttrNames` below.
-/

namespace BulletDrop

/-- Redis keys, modelled as character lists. -/
abbrev Key := List Char

/-- The state of the Shared Counter Store (Redis) as used by the
admission-control core:
* `zsets`: the sorted sets holding rate-limit timestamps
  (member `str(score)` ↦ `score`, hence a set of scores);
* `zexp`: the `expire` deadline of each sorted-set key;
* `blocks`: the `setex` string keys `blocked:ip:…`, holding the absolute
  expiry instant while present;
* `wl`: the set stored at the key `rate_limit:whitelist`. -/
structure Store where
  zsets : Key → List ℤ
  zexp : Key → Option ℤ
  blocks : Key → Option ℤ
  wl : List Key

/-- The `rate_info` dictionary built by `RateLimiter.is_rate_limited`.
The fail-open fallback dictionary has no `"current"` entry, hence
`current : Option ℕ`.  `remaining` is an integer because the fallback
branch computes the unclamped `limit - 1`. -/
structure RateInfo where
  limit : ℕ
  remaining : ℤ
  reset : ℤ
  current : Option ℕ
deriving DecidableEq, Repr

/-- A score survives `zremrangebyscore(key, 0, now - window)` iff it is
outside the inclusive range `[0, now - window]`. -/
def inWindow (now window t : ℤ) : Bool := !(decide (0 ≤ t) && decide (t ≤ now - window))

/-- Number of timestamps of `key` still inside the sliding window at
`now`, i.e. the `zcard` observed after the pruning step and before the
current request is inserted. -/
def preCount (s : Store) (now : ℤ) (key : Key) (window : ℤ) : ℕ :=
  ((s.zsets key).filter (inWindow now window)).length

/-- `zadd key {str(t): t}`: inserts the score unless the member already
exists (equal scores have equal members `str(t)`). -/
def zsetInsert (t : ℤ) (l : List ℤ) : List ℤ := if t ∈ l then l else t :: l

/-- `RateLimiter.is_rate_limited(key, limit, window)`
(`app/middleware/rate_limit.py:58-105`).  Pipeline: prune scores in
`[0, now-window]`, read `zcard`, `zadd` the current timestamp, refresh the
key expiry to `window + 60`; returns
`(current_requests >= limit, rate_info)`.  When `fails` is set the
`except` branch returns the fail-open pair. -/
def is_rate_limited (fails : Bool) (s : Store) (now : ℤ) (key : Key)
    (limit : ℕ) (window : ℤ) : (Bool × RateInfo) × Store :=
  if fails then
    ((false, ⟨limit, (limit : ℤ) - 1, (now + window), none⟩), s)
  else
    let kept := (s.zsets key).filter (inWindow now window)
    let current_requests := kept.length
    let s' : Store :=
      { s with
        zsets := fun k => if k = key then zsetInsert now kept else s.zsets k,
        zexp := fun k => if k = key then some (now + window + 60) else s.zexp k }
    ((decide (limit ≤ current_requests),
      ⟨limit, max 0 ((limit : ℤ) - current_requests - 1), (now + window),
       some (current_requests + 1)⟩), s')

/-- The key `f"blocked:ip:{ip}"`. -/
def blockKey (ip : Key) : Key := "blocked:ip:".toList ++ ip

/-- Redis `exists` on a TTL-backed key: live iff present and not yet
expired. -/
def keyLive (s : Store) (now : ℤ) (k : Key) : Bool :=
  match s.blocks k with
  | some e => decide (now < e)
  | none => false

/-- `RateLimiter.block_ip(ip, duration)`
(`app/middleware/rate_limit.py:107-115`): `setex` of the block key; a raise
inside the `try` leaves the store untouched. -/
def block_ip (fails : Bool) (s : Store) (now : ℤ) (ip : Key) (duration : ℕ) : Store :=
  if fails then s
  else { s with blocks := fun k => if k = blockKey ip then some (now + duration) else s.blocks k }

/-- `RateLimiter.is_ip_blocked(ip)` (`app/middleware/rate_limit.py:117-124`):
`bool(exists(block_key))`, `false` on any exception. -/
def is_ip_blocked (fails : Bool) (s : Store) (now : ℤ) (ip : Key) : Bool :=
  if fails then false else keyLive s now (blockKey ip)

/-- `RateLimiter.is_ip_whitelisted(ip)` (`app/middleware/rate_limit.py:126-132`):
`bool(sismember("rate_limit:whitelist", ip))`, `false` on any exception. -/
def is_ip_whitelisted (fails : Bool) (s : Store) (ip : Key) : Bool :=
  if fails then false else s.wl.contains ip

/-- Attribute names defined on `RedisService`
(`app/services/redis_service.py`): the two instance attributes assigned in
`__init__` followed by the methods of the class body.  Python attribute
lookup on the `redis_service` singleton succeeds exactly for these names. -/
def redisServiceAttrNames : List String :=
  ["redis_client", "_connected",
   "_connect", "is_connected", "_safe_operation",
   "cache_user_profile", "get_cached_user_profile",
   "cache_user_counts", "get_cached_user_counts",
   "cache_file_metadata", "get_cached_file_metadata",
   "increment_file_view", "get_file_view_count", "increment_profile_view",
   "cache_analytics", "get_cached_analytics",
   "add_to_trending", "get_trending",
   "cache_jwt_user", "get_cached_jwt_user", "invalidate_jwt_cache",
   "check_rate_limit", "clear_user_cache", "get_cache_stats"]

/-- Whether the expression `self.redis.client` in `RateLimiter` raises
`AttributeError`: it does iff `"client"` is not an attribute of
`RedisService`. -/
def clientAccessFails : Bool := !(redisServiceAttrNames.contains "client")

/-- The rate-limit settings read from `app/core/config.py`. -/
structure Settings where
  enabled : Bool
  authPerMinute : ℕ
  authPerHour : ℕ
  apiPerMinute : ℕ
  apiPerHour : ℕ
  uploadPerMinute : ℕ
  uploadPerHour : ℕ
  blockDuration : ℕ

/-- An inbound request as the middleware sees it: the URL path and the
client IP already extracted by `get_client_ip`. -/
structure Request where
  path : Key
  ip : Key

/-- Python `"pat" in s` substring test. -/
def hasSub (pat k : Key) : Bool := decide (pat <:+: k)

/-- `path.lower()`. -/
def pathLower (p : Key) : Key := p.map Char.toLower

/-- The auth-path test shared by `get_rate_limit_key` and
`get_rate_limits`: any of `/login`, `/register`, `/auth` occurs in the
lowered path. -/
def isAuthPath (p : Key) : Bool :=
  hasSub "/login".toList p || hasSub "/register".toList p || hasSub "/auth".toList p

/-- `RateLimitMiddleware.get_rate_limit_key`
(`app/middleware/rate_limit.py:180-192`). -/
def get_rate_limit_key (req : Request) : Key :=
  let path := pathLower req.path
  if isAuthPath path then "auth:ip:".toList ++ req.ip
  else if hasSub "/upload".toList path then "upload:ip:".toList ++ req.ip
  else if hasSub "/admin".toList path then "admin:ip:".toList ++ req.ip
  else "api:ip:".toList ++ req.ip

/-- `RateLimitMiddleware.get_rate_limits`
(`app/middleware/rate_limit.py:194-209`); admin endpoints reuse the API
limits.  Result: (minute limit, minute window, hour limit, hour window). -/
def get_rate_limits (st : Settings) (req : Request) : ℕ × ℤ × ℕ × ℤ :=
  let path := pathLower req.path
  if isAuthPath path then (st.authPerMinute, 60, st.authPerHour, 3600)
  else if hasSub "/upload".toList path then (st.uploadPerMinute, 60, st.uploadPerHour, 3600)
  else if hasSub "/admin".toList path then (st.apiPerMinute, 60, st.apiPerHour, 3600)
  else (st.apiPerMinute, 60, st.apiPerHour, 3600)

/-- Outcome of `RateLimitMiddleware.dispatch`: pass-through (with the
minute-window advisory headers on the normal path, none on the skip or
whitelist paths), the 429 block response (whose body and `Retry-After`
header carry `retryAfter` seconds), or the 429 rate-limit response. -/
inductive Decision where
  | allowed (headers : Option RateInfo)
  | blockedResponse (retryAfter : ℕ)
  | rateLimited (info : RateInfo) (limitType : String)
deriving DecidableEq, Repr

/-- Whether a decision lets the request through. -/
def Decision.isAllowed : Decision → Bool
  | .allowed _ => true
  | _ => false

/-- Paths exempted from rate limiting by `dispatch`. -/
def skipPaths : List Key :=
  ["/health".toList, "/docs".toList, "/redoc".toList, "/openapi.json".toList]

/-- `RateLimitMiddleware.dispatch` (`app/middleware/rate_limit.py:211-290`):
skip if disabled or on an exempt path; allow whitelisted IPs outright;
reject blocked IPs with `Retry-After = RATE_LIMIT_BLOCK_DURATION`; then run
the minute and hour sliding-window checks (both counters are touched before
either verdict is read); on a violation, block the IP iff the minute window
fired and `"auth:ip:" in key_minute`, and answer 429 with the
more-restrictive info; otherwise allow, attaching the minute-window info as
headers. -/
def dispatch (fails : Bool) (st : Settings) (s : Store) (now : ℤ) (req : Request) :
    Decision × Store :=
  if !st.enabled then (.allowed none, s)
  else if skipPaths.contains req.path then (.allowed none, s)
  else if is_ip_whitelisted fails s req.ip then (.allowed none, s)
  else if is_ip_blocked fails s now req.ip then (.blockedResponse st.blockDuration, s)
  else
    let lims := get_rate_limits st req
    let keyM := get_rate_limit_key req ++ ":1m".toList
    let rm := is_rate_limited fails s now keyM lims.1 lims.2.1
    let keyH := get_rate_limit_key req ++ ":1h".toList
    let rh := is_rate_limited fails rm.2 now keyH lims.2.2.1 lims.2.2.2
    if rm.1.1 || rh.1.1 then
      let s3 := if hasSub "auth:ip:".toList keyM && rm.1.1
                then block_ip fails rh.2 now req.ip st.blockDuration
                else rh.2
      (.rateLimited (if rm.1.1 then rm.1.2 else rh.1.2)
        (if rm.1.1 then "minute" else "hour"), s3)
    else (.allowed (some rm.1.2), rh.2)

/-- A stored security event (`SecurityEvent` in
`app/services/security_monitor.py`).  The JSON `details` map is flattened
to the three entries the monitor itself reads or writes
(`failed_attempts`, `target_username`, `rate_limit_violations`). -/
structure SEvent where
  etype : String
  ts : ℤ
  ip : String
  userId : Option ℕ := none
  username : Option String := none
  severity : String := "medium"
  failedAttempts : Option ℕ := none
  targetUsername : Option String := none
  rateLimitViolations : Option ℕ := none
deriving DecidableEq, Repr

/-- Hour bucket of the `security_counters:{type}:{Y-m-d-H}` key. -/
def hourBucket (now : ℤ) : ℤ := ⌊now / 3600⌋

/-- The monitor's Redis-resident state: the global recent list
(`security_events:recent`), the per-IP lists (`security_events:ip:{ip}`),
the per-user lists, and the hourly counters. -/
structure MonState where
  recent : List SEvent
  ipEvents : String → List SEvent
  userEvents : ℕ → List SEvent
  counters : String × ℤ → ℕ

/-- The storage half of `SecurityMonitor.log_security_event`
(`app/services/security_monitor.py:105-134`): `lpush` + `ltrim 0 999` on
the global list, `lpush` on the per-IP list, `lpush` on the per-user list
when a user id is present, and an `incr` of the hourly counter. -/
def storeEvent (now : ℤ) (e : SEvent) (s : MonState) : MonState :=
  { recent := (e :: s.recent).take 1000,
    ipEvents := fun i => if i = e.ip then e :: s.ipEvents e.ip else s.ipEvents i,
    userEvents :=
      match e.userId with
      | some u => fun i => if i = u then e :: s.userEvents u else s.userEvents i
      | none => s.userEvents,
    counters := fun k =>
      if k = (e.etype, hourBucket now) then s.counters k + 1 else s.counters k }

/-- `SecurityMonitor.get_ip_events(ip, limit)`: `lrange 0 (limit-1)` of the
per-IP list. -/
def get_ip_events (s : MonState) (ip : String) (limit : ℕ) : List SEvent :=
  (s.ipEvents ip).take limit

/-- The events `_check_brute_force_pattern` counts: `failed_login` events
of the inspected slice whose timestamp is strictly inside the trailing
10 minutes. -/
def recentFailedLogins (now : ℤ) (evs : List SEvent) : List SEvent :=
  evs.filter (fun ev => ev.etype == "failed_login" && decide (now - 600 < ev.ts))

/-- The event synthesized by `_check_brute_force_pattern`
(`app/services/security_monitor.py:287-298`). -/
def mkBruteForceEvent (now : ℤ) (ip : String) (count : ℕ) (username : Option String) :
    SEvent :=
  { etype := "brute_force_attempt", ts := now, ip := ip, severity := "critical",
    failedAttempts := some count, targetUsername := username }

/-- The event synthesized by `_check_rate_limit_pattern`
(`app/services/security_monitor.py:315-326`). -/
def mkSuspiciousEvent (now : ℤ) (ip : String) (count : ℕ) : SEvent :=
  { etype := "suspicious_request", ts := now, ip := ip, severity := "high",
    rateLimitViolations := some count }

/-- `SecurityMonitor.log_security_event`
(`app/services/security_monitor.py:69-140`): store the event (when the
store is connected), then run `_analyze_suspicious_patterns` synchronously.
The brute-force detector inspects the first 100 entries of the per-IP list
and the rate-limit detector the first 200.  The source synthesizes the
escalation event through a recursive `log_security_event` call; the
recursion is unrolled here, which is exact because the synthesized types
(`brute_force_attempt`, `suspicious_request`) match neither detector
branch, so the nested call only stores. -/
def log_security_event (connected : Bool) (now : ℤ) (e : SEvent) (s : MonState) :
    MonState :=
  if !connected then s
  else
    let s1 := storeEvent now e s
    if e.etype == "failed_login" then
      let rf := recentFailedLogins now (get_ip_events s1 e.ip 100)
      if 5 ≤ rf.length then storeEvent now (mkBruteForceEvent now e.ip rf.length e.username) s1
      else s1
    else if e.etype == "rate_limit_exceeded" then
      let rv := (get_ip_events s1 e.ip 200).filter
        (fun ev => ev.etype == "rate_limit_exceeded" && decide (now - 3600 < ev.ts))
      if 10 ≤ rv.length then storeEvent now (mkSuspiciousEvent now e.ip rv.length) s1
      else s1
    else s1

/-- Python truthiness of the `event_type` argument of `clear_events`. -/
def etTruthy : Option String → Bool
  | some t => !(t == "")
  | none => false

/-- Python truthiness of the `older_than_hours` argument of
`clear_events`. -/
def ohTruthy : Option ℕ → Bool
  | some n => !(n == 0)
  | none => false

/-- The per-event keep decision of the `clear_events` filtering loop
(`app/services/security_monitor.py:362-380`): `should_keep` starts true,
is cleared when the type filter is given and matches, and — only if still
true — cleared when the age filter is given and the event is older than
the cutoff. -/
def keepEvent (et : Option String) (oh : Option ℕ) (now : ℤ) (ev : SEvent) : Bool :=
  if etTruthy et && ev.etype == et.getD "" then false
  else if ohTruthy oh && decide (ev.ts < now - 3600 * (oh.getD 0 : ℤ)) then false
  else true

/-- `SecurityMonitor.clear_events(event_type, older_than_hours)`
(`app/services/security_monitor.py:340-404`).  With a (truthy) filter the
global recent list is read, filtered, and — when anything was dropped —
deleted and refilled with `lpush(*events_to_keep)`; `LPUSH` with several
values pushes them left-to-right, each becoming the new head, so the
refilled list is the reverse of `events_to_keep`.  Only the global list is
touched; the per-IP and per-user lists are not.  With no filter the global
list and the hourly counters are cleared.  Returns the cleared count. -/
def clear_events (connected : Bool) (et : Option String) (oh : Option ℕ)
    (now : ℤ) (s : MonState) : ℕ × MonState :=
  if !connected then (0, s)
  else if etTruthy et || ohTruthy oh then
    let kept := s.recent.filter (keepEvent et oh now)
    let cleared := s.recent.length - kept.length
    if 0 < cleared then (cleared, { s with recent := kept.reverse })
    else (cleared, s)
  else
    (s.recent.length, { s with recent := [], counters := fun _ => 0 })

/-- The combined state of the Shared Counter Store and the Security Event
Monitor's stored views. -/
structure SysState where
  store : Store
  monitor : MonState

/-- The admission gate acting on the combined system state.
`rate_limit.py` neither imports nor calls the security monitor, so
`dispatch` leaves the monitor state untouched. -/
def dispatchSys (fails : Bool) (st : Settings) (σ : SysState) (now : ℤ)
    (req : Request) : Decision × SysState :=
  let r := dispatch fails st σ.store now req
  (r.1, ⟨r.2, σ.monitor⟩)

/-- Error outcomes of the admin route handlers in
`app/api/routes/rate_limits.py`: the 503 raised when
`redis_service.is_connected()` is false, and the 500 produced by the
`except Exception` wrapper. -/
inductive RouteErr where
  | serviceUnavailable
  | internalError
deriving DecidableEq, Repr

/-- The glob `f"*:{ip}:*"` used by `redis_service.client.keys(...)` in the
unblock and whitelist routes: a key matches iff it contains `:{ip}:`. -/
def globMatch (ip : Key) (k : Key) : Bool := decide ((':' :: (ip ++ [':'])) <:+: k)

/-- The whitelist's own key, also part of the scanned keyspace. -/
def wlKey : Key := "rate_limit:whitelist".toList

/-- Deletion of every key matching `f"*:{ip}:*"`, applied to the whole
keyspace as `keys()` scans it. -/
def deletePattern (s : Store) (ip : Key) : Store :=
  { zsets := fun k => if globMatch ip k then [] else s.zsets k,
    zexp := fun k => if globMatch ip k then none else s.zexp k,
    blocks := fun k => if globMatch ip k then none else s.blocks k,
    wl := if globMatch ip wlKey then [] else s.wl }

/-- Response body flag of the unblock route. -/
structure UnblockResp where
  wasBlocked : Bool
deriving DecidableEq, Repr

/-- `unblock_ip` route (`app/api/routes/rate_limits.py:88-123`): 503 when
the store is unreachable, 500 when anything raises; otherwise read
`exists(block_key)` into `was_blocked`, delete the block key, delete every
key matching `f"*:{ip}:*"`, and answer with `bool(was_blocked)`. -/
def unblock_ip (connected fails : Bool) (s : Store) (now : ℤ) (ip : Key) :
    Except RouteErr (UnblockResp × Store) :=
  if !connected then .error .serviceUnavailable
  else if fails then .error .internalError
  else
    let wasBlocked := keyLive s now (blockKey ip)
    let s1 := { s with blocks := fun k => if k = blockKey ip then none else s.blocks k }
    .ok (⟨wasBlocked⟩, deletePattern s1 ip)

/-- `add_to_whitelist` route (`app/api/routes/rate_limits.py:143-183`):
503/500 as above; otherwise `sadd` the IP into the whitelist set, delete
its block key, and delete every key matching `f"*:{ip}:*"`. -/
def add_to_whitelist (connected fails : Bool) (s : Store) (ip : Key) :
    Except RouteErr Store :=
  if !connected then .error .serviceUnavailable
  else if fails then .error .internalError
  else
    let s1 := { s with wl := if s.wl.contains ip then s.wl else ip :: s.wl }
    let s2 := { s1 with blocks := fun k => if k = blockKey ip then none else s1.blocks k }
    .ok (deletePattern s2 ip)

/-! ## Concrete fixtures for witnesses and counterexamples -/

/-- A store holding three recorded timestamps (two of them inside the
60-second window ending at `now = 100`) under every key; fixture for the
C1 witness. -/
def storeC1 : Store :=
  { zsets := fun _ => [(95 : ℤ), 50, 10], zexp := fun _ => none,
    blocks := fun _ => none, wl := [] }

/-- Key used by the C1 witness. -/
def keyC1 : Key := "auth:ip:1.2.3.4:1m".toList

/-- Production-default settings (`app/core/config.py`): auth 5/min and
20/h, api 60/min and 1000/h, upload 10/min and 100/h, block 300 s. -/
def stDefault : Settings := ⟨true, 5, 20, 60, 1000, 10, 100, 300⟩

/-- Store whose whitelist holds the C4 witness IP. -/
def sC4 : Store :=
  { zsets := fun _ => [], zexp := fun _ => none, blocks := fun _ => none,
    wl := ["203.0.113.7".toList] }

/-- Request from the whitelisted IP, fixture for the C4 witness. -/
def reqC4 : Request := ⟨"/api/users".toList, "203.0.113.7".toList⟩

/-- Settings with an auth minute-limit of 1, fixture for C5. -/
def stC5 : Settings := ⟨true, 1, 20, 60, 1000, 10, 100, 300⟩

/-- Store with one in-window auth timestamp already recorded for
`1.2.3.4`, fixture for C5 (the next auth request at `now = 100` is the
over-limit one). -/
def sC5 : Store :=
  { zsets := fun k => if k = "auth:ip:1.2.3.4:1m".toList then [95] else [],
    zexp := fun _ => none, blocks := fun _ => none, wl := [] }

/-- Auth request fixture for C5. -/
def reqC5 : Request := ⟨"/login".toList, "1.2.3.4".toList⟩

/-- Security monitor with no stored events, fixture for C5. -/
def monC5 : MonState := ⟨[], fun _ => [], fun _ => [], fun _ => 0⟩

/-- Store with a block record for `9.9.9.9` expiring at 200 (remaining
TTL 100 at `now = 100`), fixture for C8. -/
def sC8 : Store :=
  { zsets := fun _ => [], zexp := fun _ => none,
    blocks := fun k => if k = blockKey "9.9.9.9".toList then some 200 else none,
    wl := [] }

/-- Request from the blocked IP, fixture for C8. -/
def reqC8 : Request := ⟨"/api/users".toList, "9.9.9.9".toList⟩

/-- A `failed_login` event targeting `root` at instant 1000, the one just
recorded in the C6 scenarios. -/
def eC6 : SEvent :=
  { etype := "failed_login", ts := 1000, ip := "6.6.6.6", username := some "root" }

/-- A non-login event used to pad the front of the per-IP list in the C6
counterexample. -/
def fillerC6 : SEvent := { etype := "rate_limit_exceeded", ts := 1000, ip := "6.6.6.6" }

/-- A `failed_login` event 100 seconds old, inside the 10-minute window at
instant 1000. -/
def oldFlC6 : SEvent := { etype := "failed_login", ts := 900, ip := "6.6.6.6" }

/-- Monitor state for the C6 counterexample: 100 recent non-login events
in front of 4 in-window failed logins, so the 5 in-window failed logins
present after the next record do not all fit in the 100-entry slice the
detector inspects. -/
def monC6 : MonState :=
  ⟨[], fun i => if i = "6.6.6.6" then List.replicate 100 fillerC6 ++ List.replicate 4 oldFlC6
      else [],
    fun _ => [], fun _ => 0⟩

/-- Monitor state for the C6 witness: 4 in-window failed logins and
nothing else, so the 5th lands inside the inspected slice. -/
def monC6w : MonState :=
  ⟨[], fun i => if i = "6.6.6.6" then List.replicate 4 oldFlC6 else [],
    fun _ => [], fun _ => 0⟩

/-- A fresh `failed_login` event at instant 1000, fixture for C7 (it
matches the type filter but is newer than any cutoff). -/
def eC7 : SEvent := { etype := "failed_login", ts := 1000, ip := "7.7.7.7" }

/-- Monitor state for C7: the fresh event is in both the global recent
list and its IP's list. -/
def monC7 : MonState :=
  ⟨[eC7], fun i => if i = "7.7.7.7" then [eC7] else [], fun _ => [], fun _ => 0⟩

/-- Store with no block records at all, fixture for the C9 witness. -/
def sC9 : Store :=
  { zsets := fun _ => [], zexp := fun _ => none, blocks := fun _ => none, wl := [] }

/-- Newest event of the C10 witness (kept by the type filter). -/
def eC10a : SEvent := { etype := "admin_action", ts := 30, ip := "10.0.0.1" }

/-- Middle event of the C10 witness (removed by the type filter). -/
def eC10b : SEvent := { etype := "failed_login", ts := 20, ip := "10.0.0.1" }

/-- Oldest event of the C10 witness (kept by the type filter). -/
def eC10c : SEvent := { etype := "admin_action", ts := 10, ip := "10.0.0.1" }

/-- Monitor state for the C10 witness: three events, newest first. -/
def monC10 : MonState :=
  ⟨[eC10a, eC10b, eC10c], fun _ => [], fun _ => [], fun _ => 0⟩

/-! ## Helper lemmas -/

lemma is_rate_limited_wl (f : Bool) (s : Store) (now : ℤ) (k : Key) (l : ℕ) (w : ℤ) :
    ((is_rate_limited f s now k l w).2).wl = s.wl := by
  unfold is_rate_limited
  split <;> rfl

lemma is_rate_limited_blocks (f : Bool) (s : Store) (now : ℤ) (k : Key) (l : ℕ) (w : ℤ) :
    ((is_rate_limited f s now k l w).2).blocks = s.blocks := by
  unfold is_rate_limited
  split <;> rfl

lemma block_ip_wl (f : Bool) (s : Store) (now : ℤ) (ip : Key) (d : ℕ) :
    (block_ip f s now ip d).wl = s.wl := by
  unfold block_ip
  split <;> rfl

/-- `dispatch` never touches the whitelist set. -/
lemma dispatch_wl (f : Bool) (st : Settings) (s : Store) (now : ℤ) (req : Request) :
    ((dispatch f st s now req).2).wl = s.wl := by
  unfold dispatch
  split
  · rfl
  split
  · rfl
  split
  · rfl
  split
  · rfl
  dsimp only
  split
  · dsimp only
    split <;> simp [block_ip_wl, is_rate_limited_wl]
  · dsimp only
    simp [is_rate_limited_wl]

/-- `dispatch` leaves the block registry unchanged unless the minute
window fired on a key carrying the `auth:ip:` marker. -/
lemma dispatch_blocks_frame (st : Settings) (s : Store) (now : ℤ) (req : Request)
    (h : hasSub "auth:ip:".toList (get_rate_limit_key req ++ ":1m".toList) = false
      ∨ (is_rate_limited false s now (get_rate_limit_key req ++ ":1m".toList)
          (get_rate_limits st req).1 (get_rate_limits st req).2.1).1.1 = false) :
    ((dispatch false st s now req).2).blocks = s.blocks := by
  unfold dispatch
  split
  · rfl
  split
  · rfl
  split
  · rfl
  split
  · rfl
  dsimp only
  split
  · dsimp only
    split
    · rename_i hcond
      rcases h with h | h <;> rw [h] at hcond <;> simp at hcond
    · simp [is_rate_limited_blocks]
  · dsimp only
    simp [is_rate_limited_blocks]

/-- Dropped-element count of a filter, as the length of the
complementary filter. -/
lemma length_sub_filter {α : Type} (l : List α) (p : α → Bool) :
    l.length - (l.filter p).length = (l.filter (fun a => !(p a))).length := by
  induction l with
  | nil => rfl
  | cons a t ih =>
    by_cases h : p a = true
    · have hf : List.filter p (a :: t) = a :: List.filter p t := by simp [h]
      have hg : List.filter (fun x => !(p x)) (a :: t) = List.filter (fun x => !(p x)) t := by
        simp [h]
      rw [hf, hg, List.length_cons, List.length_cons]
      omega
    · have hpa : p a = false := by simpa using h
      have hf : List.filter p (a :: t) = List.filter p t := by simp [hpa]
      have hg : List.filter (fun x => !(p x)) (a :: t)
          = a :: List.filter (fun x => !(p x)) t := by simp [hpa]
      rw [hf, hg, List.length_cons, List.length_cons]
      have := t.length_filter_le p
      omega

/-- With both filters truthy, the keep decision of `clear_events` is the
negation of `type matches OR older than cutoff` — a union, not the
intersection. -/
lemma keepEvent_both (t : String) (n : ℕ) (now : ℤ) (ev : SEvent)
    (ht : t ≠ "") (hn : n ≠ 0) :
    keepEvent (some t) (some n) now ev
      = !((ev.etype == t) || decide (ev.ts < now - 3600 * (n : ℤ))) := by
  have ht' : (t == "") = false := by simpa using ht
  have hn' : (n == 0) = false := by simpa using hn
  simp only [keepEvent, etTruthy, ohTruthy, ht', hn', Option.getD_some, Bool.not_false,
    Bool.true_and]
  by_cases h1 : (ev.etype == t) = true
  · simp [h1]
  · have h1' : (ev.etype == t) = false := by simpa using h1
    by_cases h2 : decide (ev.ts < now - 3600 * (n : ℤ)) = true
    · simp [h1', h2]
    · have h2' : decide (ev.ts < now - 3600 * (n : ℤ)) = false := by simpa using h2
      simp [h1', h2']

/-! ## Claim theorems -/

/-- C1: For every rate-limit key with limit N ≥ 1 and window W: the
over-limit verdict equals `pre-insert in-window count ≥ N`, so a request
whose pre-insert count is below N is admitted, a request arriving when the
pre-insert count reaches N is denied, a brand-new key is always admitted,
and the reported `current` is the pre-insert count plus one (the
just-recorded request is included in the report but excluded from the
decision). -/
theorem is_rate_limited_decides_on_preinsert_count (s : Store) (now : ℤ) (key : Key)
    (limit : ℕ) (window : ℤ) (h : 0 < limit) :
    (is_rate_limited false s now key limit window).1.1
        = decide (limit ≤ preCount s now key window)
    ∧ (preCount s now key window < limit →
        (is_rate_limited false s now key limit window).1.1 = false)
    ∧ (limit ≤ preCount s now key window →
        (is_rate_limited false s now key limit window).1.1 = true)
    ∧ (s.zsets key = [] → (is_rate_limited false s now key limit window).1.1 = false)
    ∧ (is_rate_limited false s now key limit window).1.2.current
        = some (preCount s now key window + 1) := by
  refine ⟨rfl, ?_, ?_, ?_, rfl⟩
  · intro hlt
    simp [is_rate_limited, preCount] at *
    omega
  · intro hle
    simp [is_rate_limited, preCount] at *
    omega
  · intro hz
    simp [is_rate_limited, preCount, hz]
    omega

/-- Witness for C1 at limit 3, window 60, now 100, with two in-window
timestamps recorded. -/
theorem is_rate_limited_decides_on_preinsert_count_witness :
    0 < 3
    ∧ ((is_rate_limited false storeC1 100 keyC1 3 60).1.1
        = decide (3 ≤ preCount storeC1 100 keyC1 60)
      ∧ (preCount storeC1 100 keyC1 60 < 3 →
          (is_rate_limited false storeC1 100 keyC1 3 60).1.1 = false)
      ∧ (3 ≤ preCount storeC1 100 keyC1 60 →
          (is_rate_limited false storeC1 100 keyC1 3 60).1.1 = true)
      ∧ (storeC1.zsets keyC1 = [] →
          (is_rate_limited false storeC1 100 keyC1 3 60).1.1 = false)
      ∧ (is_rate_limited false storeC1 100 keyC1 3 60).1.2.current
          = some (preCount storeC1 100 keyC1 60 + 1)) :=
  ⟨by decide,
   is_rate_limited_decides_on_preinsert_count storeC1 100 keyC1 3 60 (by decide)⟩

/-- C2: `RateLimiter` reads the attribute `client` of the `RedisService`
singleton, but `RedisService` defines only `redis_client`; hence every
limiter call raises inside its `try` block: `is_rate_limited` always
returns `(False, best-effort info)`, `is_ip_blocked` and
`is_ip_whitelisted` always return `False`, and the middleware allows every
request — it never denies on limit or block grounds and never honors the
whitelist. -/
theorem rate_limiter_client_attribute_missing :
    clientAccessFails = true
    ∧ "client" ∉ redisServiceAttrNames
    ∧ "redis_client" ∈ redisServiceAttrNames
    ∧ (∀ (s : Store) (now : ℤ) (key : Key) (limit : ℕ) (window : ℤ),
        is_rate_limited clientAccessFails s now key limit window
          = ((false, ⟨limit, (limit : ℤ) - 1, (now + window), none⟩), s))
    ∧ (∀ (s : Store) (now : ℤ) (ip : Key),
        is_ip_blocked clientAccessFails s now ip = false)
    ∧ (∀ (s : Store) (ip : Key), is_ip_whitelisted clientAccessFails s ip = false)
    ∧ (∀ (st : Settings) (s : Store) (now : ℤ) (req : Request),
        (dispatch clientAccessFails st s now req).1.isAllowed = true) := by
  refine ⟨rfl, by decide, by decide, fun _ _ _ _ _ => rfl, fun _ _ _ => rfl,
    fun _ _ => rfl, ?_⟩
  intro st s now req
  show (dispatch true st s now req).1.isAllowed = true
  unfold dispatch
  split
  · rfl
  · split
    · rfl
    · rfl

/-- C3: when the Shared Counter Store is unreachable or the pipelined
transaction raises (the `except` branch), `is_rate_limited` returns
`over_limit = false` with the best-effort info dictionary and an unchanged
store instead of propagating, `is_ip_blocked` returns `false`, and the
admission decision for any such request is ALLOWED. -/
theorem store_failure_fails_open :
    (∀ (s : Store) (now : ℤ) (key : Key) (limit : ℕ) (window : ℤ),
        is_rate_limited true s now key limit window
          = ((false, ⟨limit, (limit : ℤ) - 1, (now + window), none⟩), s))
    ∧ (∀ (s : Store) (now : ℤ) (ip : Key), is_ip_blocked true s now ip = false)
    ∧ (∀ (st : Settings) (s : Store) (now : ℤ) (req : Request),
        (dispatch true st s now req).1.isAllowed = true) := by
  refine ⟨fun _ _ _ _ _ => rfl, fun _ _ _ => rfl, ?_⟩
  intro st s now req
  unfold dispatch
  split
  · rfl
  · split
    · rfl
    · rfl

/-- C4: a request from a whitelisted IP is ALLOWED with no block check
and no limiter check performed — the store is untouched and no rate-limit
headers are attached — and the whitelisting route, as a side effect,
deletes the IP's block record and every rate-limit counter key of that IP
(any key containing `:{ip}:`). -/
theorem whitelisted_ip_bypasses_everything (st : Settings) (s : Store) (now : ℤ)
    (req : Request)
    (henb : st.enabled = true)
    (hskip : req.path ∉ skipPaths)
    (hwl : req.ip ∈ s.wl) :
    dispatch false st s now req = (.allowed none, s)
    ∧ (∀ (s2 : Store) (Z : Key), globMatch Z wlKey = false →
        ∃ s3, add_to_whitelist true false s2 Z = .ok s3
          ∧ Z ∈ s3.wl
          ∧ s3.blocks (blockKey Z) = none
          ∧ ∀ a b : Key, s3.zsets (a ++ ':' :: (Z ++ ':' :: b)) = []) := by
  constructor
  · unfold dispatch
    simp [henb, hskip, is_ip_whitelisted, hwl]
  · intro s2 Z hglob
    refine ⟨_, rfl, ?_, ?_, ?_⟩
    · simp only [deletePattern, hglob, Bool.false_eq_true, if_false]
      by_cases h : Z ∈ s2.wl
      · simp [h]
      · simp [h]
    · simp only [deletePattern]
      split
      · rfl
      · simp
    · intro a b
      have hm : globMatch Z (a ++ ':' :: (Z ++ ':' :: b)) = true := by
        apply decide_eq_true
        exact ⟨a, b, by simp⟩
      simp only [deletePattern, hm, if_true]

/-- Witness for C4: a whitelisted IP requesting `/api/users` under the
default settings. -/
theorem whitelisted_ip_bypasses_everything_witness :
    (stDefault.enabled = true ∧ reqC4.path ∉ skipPaths ∧ reqC4.ip ∈ sC4.wl)
    ∧ (dispatch false stDefault sC4 100 reqC4 = (.allowed none, sC4)
      ∧ (∀ (s2 : Store) (Z : Key), globMatch Z wlKey = false →
          ∃ s3, add_to_whitelist true false s2 Z = .ok s3
            ∧ Z ∈ s3.wl
            ∧ s3.blocks (blockKey Z) = none
            ∧ ∀ a b : Key, s3.zsets (a ++ ':' :: (Z ++ ':' :: b)) = [])) :=
  ⟨⟨rfl, by decide, by decide⟩,
   whitelisted_ip_bypasses_everything stDefault sC4 100 reqC4 rfl (by decide) (by decide)⟩

/-- C5 counterexample: with an auth minute-limit of 1 and one request
already recorded, the over-limit auth request from `1.2.3.4` is denied
with the limit-based 429 and a block record is created — the claimed
scenario — yet the Security Event Monitor receives nothing: its recent
list (to which `log_security_event` always pushes) is still empty, so no
`rate_limit_exceeded`/`ip_blocked` SecurityEvent pair was emitted
(`rate_limit.py` never calls the monitor). -/
theorem auth_block_counterexample :
    (dispatchSys false stC5 ⟨sC5, monC5⟩ 100 reqC5).1
        = .rateLimited ⟨1, 0, 160, some 2⟩ "minute"
    ∧ (dispatchSys false stC5 ⟨sC5, monC5⟩ 100 reqC5).2.store.blocks
        (blockKey "1.2.3.4".toList) = some 400
    ∧ (dispatchSys false stC5 ⟨sC5, monC5⟩ 100 reqC5).2.monitor.recent = [] := by
  decide

/-- C5 (amended: the gate blocks but only logs a warning, it emits no
SecurityEvents): an auth-category request whose minute window is over
limit immediately creates a block record for the IP with the configured
block duration while answering the limit-based `"minute"` 429; any later
request by that IP within the block duration is denied with the
block-based rejection instead; and no request without the `auth:ip:`
marker in its minute key, and no request whose minute window is under
limit (hour-window-only violations included), changes the block
registry. -/
theorem auth_minute_violation_blocks_ip (st : Settings) (s : Store) (now : ℤ)
    (req : Request)
    (henb : st.enabled = true) (hskip : req.path ∉ skipPaths)
    (hwl : req.ip ∉ s.wl)
    (hnb : keyLive s now (blockKey req.ip) = false)
    (hauth : isAuthPath (pathLower req.path) = true)
    (hover : st.authPerMinute ≤
        preCount s now (get_rate_limit_key req ++ ":1m".toList) 60) :
    ((dispatch false st s now req).2).blocks (blockKey req.ip)
        = some (now + (st.blockDuration : ℤ))
    ∧ (∃ info, (dispatch false st s now req).1 = .rateLimited info "minute")
    ∧ (∀ (req2 : Request) (now2 : ℤ), req2.ip = req.ip → req2.path ∉ skipPaths →
        now2 < now + (st.blockDuration : ℤ) →
        dispatch false st ((dispatch false st s now req).2) now2 req2
          = (.blockedResponse st.blockDuration, (dispatch false st s now req).2))
    ∧ (∀ (s2 : Store) (now2 : ℤ) (req2 : Request),
        hasSub "auth:ip:".toList (get_rate_limit_key req2 ++ ":1m".toList) = false →
        ((dispatch false st s2 now2 req2).2).blocks = s2.blocks)
    ∧ (∀ (s2 : Store) (now2 : ℤ) (req2 : Request),
        preCount s2 now2 (get_rate_limit_key req2 ++ ":1m".toList)
            (get_rate_limits st req2).2.1 < (get_rate_limits st req2).1 →
        ((dispatch false st s2 now2 req2).2).blocks = s2.blocks) := by
  have hkey : get_rate_limit_key req = "auth:ip:".toList ++ req.ip := by
    simp [get_rate_limit_key, hauth]
  have hlims : get_rate_limits st req = (st.authPerMinute, 60, st.authPerHour, 3600) := by
    simp [get_rate_limits, hauth]
  have hrm : (is_rate_limited false s now (get_rate_limit_key req ++ ":1m".toList)
      (get_rate_limits st req).1 (get_rate_limits st req).2.1).1.1 = true := by
    rw [hlims]
    exact decide_eq_true hover
  have hsub : hasSub "auth:ip:".toList (get_rate_limit_key req ++ ":1m".toList) = true := by
    rw [hkey]
    apply decide_eq_true
    exact ⟨[], req.ip ++ ":1m".toList, by simp⟩
  have h1 : ((dispatch false st s now req).2).blocks (blockKey req.ip)
      = some (now + (st.blockDuration : ℤ)) := by
    unfold dispatch
    simp only [henb, Bool.not_true, Bool.false_eq_true, if_false]
    rw [if_neg (by simpa using hskip)]
    rw [if_neg (by simp [is_ip_whitelisted]; simpa using hwl)]
    rw [if_neg (by simp [is_ip_blocked, hnb])]
    simp only [hrm, hsub, Bool.true_or, if_true, Bool.and_self]
    simp [block_ip]
  refine ⟨h1, ?_, ?_, ?_, ?_⟩
  · unfold dispatch
    simp only [henb, Bool.not_true, Bool.false_eq_true, if_false]
    rw [if_neg (by simpa using hskip)]
    rw [if_neg (by simp [is_ip_whitelisted]; simpa using hwl)]
    rw [if_neg (by simp [is_ip_blocked, hnb])]
    simp only [hrm, hsub, Bool.true_or, if_true]
    exact ⟨_, rfl⟩
  · intro req2 now2 hip hskip2 hlt
    obtain ⟨s', hs'⟩ : ∃ x, (dispatch false st s now req).2 = x := ⟨_, rfl⟩
    have hwl' : s'.wl = s.wl := by
      rw [← hs']
      exact dispatch_wl false st s now req
    rw [hs'] at h1 ⊢
    have hW : is_ip_whitelisted false s' req2.ip = false := by
      simp only [is_ip_whitelisted, Bool.false_eq_true, if_false, hwl', hip]
      simpa using hwl
    have hB : is_ip_blocked false s' now2 req2.ip = true := by
      simp only [is_ip_blocked, Bool.false_eq_true, if_false, keyLive, hip, h1]
      exact decide_eq_true hlt
    unfold dispatch
    rw [if_neg (by simp [henb]), if_neg (by simpa using hskip2), if_neg (by simp [hW]),
      if_pos (by simp [hB])]
  · intro s2 now2 req2 hns
    exact dispatch_blocks_frame st s2 now2 req2 (Or.inl hns)
  · intro s2 now2 req2 hunder
    exact dispatch_blocks_frame st s2 now2 req2
      (Or.inr (decide_eq_false (not_le.mpr hunder)))

/-- Witness for the amended C5 at the concrete over-limit auth request of
the counterexample fixture. -/
theorem auth_minute_violation_blocks_ip_witness :
    (stC5.enabled = true ∧ reqC5.path ∉ skipPaths ∧ reqC5.ip ∉ sC5.wl
      ∧ keyLive sC5 100 (blockKey reqC5.ip) = false
      ∧ isAuthPath (pathLower reqC5.path) = true
      ∧ stC5.authPerMinute ≤
          preCount sC5 100 (get_rate_limit_key reqC5 ++ ":1m".toList) 60)
    ∧ (((dispatch false stC5 sC5 100 reqC5).2).blocks (blockKey reqC5.ip)
          = some (100 + (stC5.blockDuration : ℤ))
      ∧ (∃ info, (dispatch false stC5 sC5 100 reqC5).1 = .rateLimited info "minute")
      ∧ (∀ (req2 : Request) (now2 : ℤ), req2.ip = reqC5.ip → req2.path ∉ skipPaths →
          now2 < 100 + (stC5.blockDuration : ℤ) →
          dispatch false stC5 ((dispatch false stC5 sC5 100 reqC5).2) now2 req2
            = (.blockedResponse stC5.blockDuration, (dispatch false stC5 sC5 100 reqC5).2))
      ∧ (∀ (s2 : Store) (now2 : ℤ) (req2 : Request),
          hasSub "auth:ip:".toList (get_rate_limit_key req2 ++ ":1m".toList) = false →
          ((dispatch false stC5 s2 now2 req2).2).blocks = s2.blocks)
      ∧ (∀ (s2 : Store) (now2 : ℤ) (req2 : Request),
          preCount s2 now2 (get_rate_limit_key req2 ++ ":1m".toList)
              (get_rate_limits stC5 req2).2.1 < (get_rate_limits stC5 req2).1 →
          ((dispatch false stC5 s2 now2 req2).2).blocks = s2.blocks)) :=
  ⟨⟨rfl, by decide, by decide, by decide, by decide, by decide⟩,
   auth_minute_violation_blocks_ip stC5 sC5 100 reqC5 rfl (by decide) (by decide)
     (by decide) (by decide) (by decide)⟩

/-- C8 counterexample: `9.9.9.9` is blocked with expiry 200 and the
request arrives at `now = 100`, so the block's remaining TTL is
`200 - 100 = 100`; but the gate answers with `retry_after = 300`, the
configured `RATE_LIMIT_BLOCK_DURATION`, not the remaining TTL. -/
theorem blocked_retry_after_counterexample :
    (dispatch false stDefault sC8 100 reqC8).1 = .blockedResponse 300
    ∧ sC8.blocks (blockKey "9.9.9.9".toList) = some 200
    ∧ ((200 : ℤ) - 100 ≠ 300) := by
  decide

/-- C8 (amended: the retry-after hint is the configured block duration,
not the block's remaining TTL): every request from an IP with a live
block record is denied with the 429 block response whose retry-after
equals `RATE_LIMIT_BLOCK_DURATION`, whatever the block's remaining TTL. -/
theorem blocked_ip_denied_with_configured_duration (st : Settings) (s : Store)
    (now : ℤ) (req : Request)
    (henb : st.enabled = true) (hskip : req.path ∉ skipPaths)
    (hwl : req.ip ∉ s.wl)
    (hb : keyLive s now (blockKey req.ip) = true) :
    dispatch false st s now req = (.blockedResponse st.blockDuration, s) := by
  unfold dispatch
  simp [henb, hskip, is_ip_whitelisted, hwl, is_ip_blocked, hb]

/-- Witness for the amended C8 at the counterexample fixture. -/
theorem blocked_ip_denied_with_configured_duration_witness :
    (stDefault.enabled = true ∧ reqC8.path ∉ skipPaths ∧ reqC8.ip ∉ sC8.wl
      ∧ keyLive sC8 100 (blockKey reqC8.ip) = true)
    ∧ dispatch false stDefault sC8 100 reqC8
        = (.blockedResponse stDefault.blockDuration, sC8) :=
  ⟨⟨rfl, by decide, by decide, by decide⟩,
   blocked_ip_denied_with_configured_duration stDefault sC8 100 reqC8 rfl
     (by decide) (by decide) (by decide)⟩

/-- C6 counterexample: after recording the latest failed login, the
per-IP list of `6.6.6.6` contains 5 `failed_login` events inside the
trailing 10 minutes, yet no `brute_force_attempt` event is synthesized
anywhere in the list: the 100 padding events in front push 4 of the
failed logins beyond the 100-entry slice the detector inspects. -/
theorem brute_force_beyond_slice_counterexample :
    5 ≤ (recentFailedLogins 1000
          ((log_security_event true 1000 eC6 monC6).ipEvents "6.6.6.6")).length
    ∧ ((log_security_event true 1000 eC6 monC6).ipEvents "6.6.6.6").all
        (fun ev => !(ev.etype == "brute_force_attempt")) = true := by
  decide

/-- C6 (amended: the ≥ 5 in-window failed logins must lie among the 100
most recent entries of the per-IP list): recording a failed login whose
post-record 100-entry slice holds at least 5 in-window `failed_login`
events synchronously prepends, to that IP's list, a synthesized
`brute_force_attempt` event of severity `critical` carrying the offending
count and the just-targeted username. -/
theorem brute_force_synthesizes_critical_event (now : ℤ) (e : SEvent) (s : MonState)
    (he : e.etype = "failed_login")
    (h5 : 5 ≤ (recentFailedLogins now ((e :: s.ipEvents e.ip).take 100)).length) :
    (log_security_event true now e s).ipEvents e.ip
      = mkBruteForceEvent now e.ip
          (recentFailedLogins now ((e :: s.ipEvents e.ip).take 100)).length e.username
        :: e :: s.ipEvents e.ip
    ∧ (mkBruteForceEvent now e.ip
        (recentFailedLogins now ((e :: s.ipEvents e.ip).take 100)).length
        e.username).etype = "brute_force_attempt"
    ∧ (mkBruteForceEvent now e.ip
        (recentFailedLogins now ((e :: s.ipEvents e.ip).take 100)).length
        e.username).severity = "critical"
    ∧ (mkBruteForceEvent now e.ip
        (recentFailedLogins now ((e :: s.ipEvents e.ip).take 100)).length
        e.username).failedAttempts
        = some (recentFailedLogins now ((e :: s.ipEvents e.ip).take 100)).length
    ∧ (mkBruteForceEvent now e.ip
        (recentFailedLogins now ((e :: s.ipEvents e.ip).take 100)).length
        e.username).targetUsername = e.username := by
  refine ⟨?_, rfl, rfl, rfl, rfl⟩
  have hbeq : (e.etype == "failed_login") = true := by simp [he]
  unfold log_security_event
  simp only [Bool.not_true, Bool.false_eq_true, if_false, hbeq, if_true]
  have hip1 : (storeEvent now e s).ipEvents e.ip = e :: s.ipEvents e.ip := by
    simp [storeEvent]
  rw [show get_ip_events (storeEvent now e s) e.ip 100
      = (e :: s.ipEvents e.ip).take 100 from by rw [get_ip_events, hip1]]
  rw [if_pos h5]
  simp [storeEvent, mkBruteForceEvent, hip1]

/-- Witness for the amended C6: the 5th in-window failed login against a
list of 4 earlier ones. -/
theorem brute_force_synthesizes_critical_event_witness :
    (eC6.etype = "failed_login"
      ∧ 5 ≤ (recentFailedLogins 1000 ((eC6 :: monC6w.ipEvents eC6.ip).take 100)).length)
    ∧ ((log_security_event true 1000 eC6 monC6w).ipEvents eC6.ip
        = mkBruteForceEvent 1000 eC6.ip
            (recentFailedLogins 1000 ((eC6 :: monC6w.ipEvents eC6.ip).take 100)).length
            eC6.username
          :: eC6 :: monC6w.ipEvents eC6.ip
      ∧ (mkBruteForceEvent 1000 eC6.ip
          (recentFailedLogins 1000 ((eC6 :: monC6w.ipEvents eC6.ip).take 100)).length
          eC6.username).etype = "brute_force_attempt"
      ∧ (mkBruteForceEvent 1000 eC6.ip
          (recentFailedLogins 1000 ((eC6 :: monC6w.ipEvents eC6.ip).take 100)).length
          eC6.username).severity = "critical"
      ∧ (mkBruteForceEvent 1000 eC6.ip
          (recentFailedLogins 1000 ((eC6 :: monC6w.ipEvents eC6.ip).take 100)).length
          eC6.username).failedAttempts
          = some (recentFailedLogins 1000 ((eC6 :: monC6w.ipEvents eC6.ip).take 100)).length
      ∧ (mkBruteForceEvent 1000 eC6.ip
          (recentFailedLogins 1000 ((eC6 :: monC6w.ipEvents eC6.ip).take 100)).length
          eC6.username).targetUsername = eC6.username) :=
  ⟨⟨rfl, by decide⟩,
   brute_force_synthesizes_critical_event 1000 eC6 monC6w rfl (by decide)⟩

/-- C7 counterexample: with `clear(event_type="failed_login",
older_than_hours=1)` at instant 1000, the stored event of that type is
*not* older than the cutoff (`1000 - 3600`), yet it is removed from the
global recent list (count 1, list emptied) — the filters act as a union,
not an intersection — while the copy in its per-IP list survives
untouched, although the claim says per-IP lists are purged too. -/
theorem clear_events_counterexample :
    (clear_events true (some "failed_login") (some 1) 1000 monC7).1 = 1
    ∧ (clear_events true (some "failed_login") (some 1) 1000 monC7).2.recent = []
    ∧ (clear_events true (some "failed_login") (some 1) 1000 monC7).2.ipEvents "7.7.7.7"
        = [eC7]
    ∧ decide (eC7.ts < 1000 - 3600 * (1 : ℤ)) = false := by
  decide

/-- C7 (amended: with both filters, an event is removed iff it matches
the type OR is older than the cutoff, and only the global recent list is
touched): the returned count is the number of matching events of the
global list, the per-IP/per-user lists and the counters are unchanged,
and an event survives in the global list iff it neither matches the type
nor is older than the cutoff. -/
theorem clear_events_union_and_global_only (t : String) (n : ℕ) (now : ℤ) (s : MonState)
    (ht : t ≠ "") (hn : n ≠ 0) :
    (clear_events true (some t) (some n) now s).1
        = (s.recent.filter
            (fun ev => (ev.etype == t) || decide (ev.ts < now - 3600 * (n : ℤ)))).length
    ∧ ((clear_events true (some t) (some n) now s).2).ipEvents = s.ipEvents
    ∧ ((clear_events true (some t) (some n) now s).2).userEvents = s.userEvents
    ∧ ((clear_events true (some t) (some n) now s).2).counters = s.counters
    ∧ ∀ ev, ev ∈ ((clear_events true (some t) (some n) now s).2).recent ↔
        (ev ∈ s.recent ∧ ¬(ev.etype = t ∨ ev.ts < now - 3600 * (n : ℤ))) := by
  have hcond : (etTruthy (some t) || ohTruthy (some n)) = true := by
    simp [etTruthy, ht]
  have hfun : (fun ev => !(keepEvent (some t) (some n) now ev))
      = (fun ev => (ev.etype == t) || decide (ev.ts < now - 3600 * (n : ℤ))) := by
    funext ev
    rw [keepEvent_both t n now ev ht hn]
    simp
  have hlen : s.recent.length - (s.recent.filter (keepEvent (some t) (some n) now)).length
      = (s.recent.filter
          (fun ev => (ev.etype == t) || decide (ev.ts < now - 3600 * (n : ℤ)))).length := by
    rw [length_sub_filter, hfun]
  have hmemkeep : ∀ ev, (keepEvent (some t) (some n) now ev = true)
      ↔ ¬(ev.etype = t ∨ ev.ts < now - 3600 * (n : ℤ)) := by
    intro ev
    rw [keepEvent_both t n now ev ht hn]
    simp
  unfold clear_events
  simp only [Bool.not_true, Bool.false_eq_true, if_false, hcond, if_true]
  split
  · rename_i hpos
    refine ⟨hlen, rfl, rfl, rfl, ?_⟩
    intro ev
    simp only [List.mem_reverse, List.mem_filter]
    rw [hmemkeep ev]
  · rename_i hneg
    have hz : s.recent.length - (s.recent.filter (keepEvent (some t) (some n) now)).length
        = 0 := by omega
    refine ⟨by rw [← hlen, hz], rfl, rfl, rfl, ?_⟩
    have hall : ∀ ev ∈ s.recent, keepEvent (some t) (some n) now ev = true := by
      apply List.filter_length_eq_length.mp
      have := s.recent.length_filter_le (keepEvent (some t) (some n) now)
      omega
    intro ev
    constructor
    · intro hm
      exact ⟨hm, (hmemkeep ev).mp (hall ev hm)⟩
    · intro hm
      exact hm.1

/-- Witness for the amended C7 at the counterexample fixture. -/
theorem clear_events_union_and_global_only_witness :
    ("failed_login" ≠ "" ∧ (1 : ℕ) ≠ 0)
    ∧ ((clear_events true (some "failed_login") (some 1) 1000 monC7).1
        = (monC7.recent.filter
            (fun ev => (ev.etype == "failed_login")
              || decide (ev.ts < 1000 - 3600 * ((1 : ℕ) : ℤ)))).length
      ∧ ((clear_events true (some "failed_login") (some 1) 1000 monC7).2).ipEvents
          = monC7.ipEvents
      ∧ ((clear_events true (some "failed_login") (some 1) 1000 monC7).2).userEvents
          = monC7.userEvents
      ∧ ((clear_events true (some "failed_login") (some 1) 1000 monC7).2).counters
          = monC7.counters
      ∧ ∀ ev, ev ∈ ((clear_events true (some "failed_login") (some 1) 1000 monC7).2).recent
          ↔ (ev ∈ monC7.recent
              ∧ ¬(ev.etype = "failed_login" ∨ ev.ts < 1000 - 3600 * ((1 : ℕ) : ℤ)))) :=
  ⟨⟨by decide, by decide⟩,
   clear_events_union_and_global_only "failed_login" 1 1000 monC7 (by decide) (by decide)⟩

/-- C9: unblocking an IP that has no current block record returns
`was_blocked = false` through the normal `.ok` path (no exception) and
leaves the block registry entry of that IP unchanged (still absent). -/
theorem unblock_never_blocked_is_noop (s : Store) (now : ℤ) (Z : Key)
    (h : s.blocks (blockKey Z) = none) :
    ∃ r, unblock_ip true false s now Z = .ok r
      ∧ r.1.wasBlocked = false
      ∧ r.2.blocks (blockKey Z) = none := by
  refine ⟨_, rfl, ?_, ?_⟩
  · show keyLive s now (blockKey Z) = false
    simp [keyLive, h]
  · show (deletePattern _ Z).blocks (blockKey Z) = none
    simp only [deletePattern]
    split
    · rfl
    · simp

/-- Witness for C9: unblocking `8.8.8.8` in a store with no blocks. -/
theorem unblock_never_blocked_is_noop_witness :
    sC9.blocks (blockKey "8.8.8.8".toList) = none
    ∧ ∃ r, unblock_ip true false sC9 50 "8.8.8.8".toList = .ok r
        ∧ r.1.wasBlocked = false
        ∧ r.2.blocks (blockKey "8.8.8.8".toList) = none :=
  ⟨by decide, unblock_never_blocked_is_noop sC9 50 "8.8.8.8".toList (by decide)⟩

/-- C10: when a filtered `clear` removes at least one event, the
surviving global recent list is the reverse of the filtered list (the
survivors are `LPUSH`ed head-to-tail); in particular a newest-first list
comes back oldest-first. -/
theorem clear_events_reverses_survivors (et : Option String) (oh : Option ℕ)
    (now : ℤ) (s : MonState)
    (hfilter : (etTruthy et || ohTruthy oh) = true)
    (hcleared : 0 < s.recent.length - (s.recent.filter (keepEvent et oh now)).length) :
    (clear_events true et oh now s).2.recent
        = (s.recent.filter (keepEvent et oh now)).reverse
    ∧ (List.Pairwise (fun a b => b.ts ≤ a.ts) s.recent →
        List.Pairwise (fun a b => a.ts ≤ b.ts)
          ((clear_events true et oh now s).2.recent)) := by
  have h : (clear_events true et oh now s).2.recent
      = (s.recent.filter (keepEvent et oh now)).reverse := by
    unfold clear_events
    simp only [Bool.not_true, Bool.false_eq_true, if_false, hfilter, if_true]
    rw [if_pos hcleared]
  refine ⟨h, ?_⟩
  intro hp
  rw [h, List.pairwise_reverse]
  exact List.Pairwise.filter _ hp

/-- Witness for C10: a three-event newest-first list from which the type
filter removes the middle event; the survivors come back oldest-first. -/
theorem clear_events_reverses_survivors_witness :
    ((etTruthy (some "failed_login") || ohTruthy none) = true
      ∧ 0 < monC10.recent.length
          - (monC10.recent.filter (keepEvent (some "failed_login") none 5000)).length)
    ∧ ((clear_events true (some "failed_login") none 5000 monC10).2.recent
        = (monC10.recent.filter (keepEvent (some "failed_login") none 5000)).reverse
      ∧ (List.Pairwise (fun a b => b.ts ≤ a.ts) monC10.recent →
          List.Pairwise (fun a b => a.ts ≤ b.ts)
            ((clear_events true (some "failed_login") none 5000 monC10).2.recent))) :=
  ⟨⟨by decide, by decide⟩,
   clear_events_reverses_survivors (some "failed_login") none 5000 monC10
     (by decide) (by decide)⟩

end BulletDrop
